import Mathlib

/-!
Shallow embedding of `src/app.py` (Laptop Price Prediction, a Streamlit app).

The app loads three pickled artifacts (a regression model, a dictionary of
`LabelEncoder`s, and an ordered feature-column list), renders a form, and on
the predict button builds `input_dict`, reindexes it against
`feature_columns` with `fill_value=0`, calls `model.predict` and displays the
result.  Python exceptions are modelled with `Except PyError`.
-/

/-- Python exceptions relevant to the app: `ValueError` (raised by
`LabelEncoder.transform` on unseen labels, caught at app.py:153),
`NameError` (raised when a name such as `prediction` is referenced while
unbound, app.py:159), and any other `Exception` (caught at app.py:155). -/
inductive PyError where
  | valueError (msg : String)
  | nameError (msg : String)
  | otherError (msg : String)
  deriving DecidableEq, Repr

/-- An sklearn `LabelEncoder` as the app uses it: its state is the trained
vocabulary `classes_` (an ordered list of labels). -/
structure LabelEncoder where
  classes_ : List String
  deriving DecidableEq, Repr

/-- `enc.transform([label])[0]` (app.py:111-120): the integer code of `label`,
i.e. its index in `classes_`; sklearn raises `ValueError` when the label is
not among the known classes. -/
def LabelEncoder.transform (enc : LabelEncoder) (label : String) : Except PyError Nat :=
  if label ∈ enc.classes_ then
    Except.ok (enc.classes_.indexOf label)
  else
    Except.error (PyError.valueError ("y contains previously unseen label " ++ label))

/-- `enc.inverse_transform([code])[0]`: look the code back up in `classes_`
(numpy indexing, out of bounds is an error). -/
def LabelEncoder.inverse_transform (enc : LabelEncoder) (code : Nat) : Except PyError String :=
  if h : code < enc.classes_.length then
    Except.ok (enc.classes_.get ⟨code, h⟩)
  else
    Except.error (PyError.otherError "index out of bounds")

/-- `get_options(feature_key)` (app.py:34-37): the list of original labels
(classes) for a given LabelEncoder. -/
def get_options (enc : LabelEncoder) : List String :=
  enc.classes_

/-- The `encoders` dictionary loaded from `encoders.pkl` (app.py:13-14),
one `LabelEncoder` per categorical feature key used by the app. -/
structure Encoders where
  Company : LabelEncoder
  TypeName : LabelEncoder
  OS : LabelEncoder
  Screen : LabelEncoder
  CPU_company : LabelEncoder
  CPU_model : LabelEncoder
  PrimaryStorageType : LabelEncoder
  SecondaryStorageType : LabelEncoder
  GPU_company : LabelEncoder
  GPU_model : LabelEncoder
  deriving DecidableEq, Repr

/-- The 21 form-field values read from the widgets (app.py:45-102).
Categorical selectboxes and the three Yes/No radios hold strings; integer
`number_input`s (`Ram`, `ScreenW`, `ScreenH`, `PrimaryStorage`,
`SecondaryStorage`) hold integers; decimal `number_input`s (`Weight`,
`Inches`, `CPU_freq`) are modelled as rationals. -/
structure FormState where
  Company : String
  TypeName : String
  OS : String
  Ram : ℤ
  Weight : ℚ
  Inches : ℚ
  ScreenType : String
  ScreenW : ℤ
  ScreenH : ℤ
  Touchscreen : String
  RetinaDisplay : String
  IPSpanel : String
  CPU_company : String
  CPU_model : String
  GPU_company : String
  GPU_model : String
  CPU_freq : ℚ
  PrimaryStorageType : String
  PrimaryStorage : ℤ
  SecondaryStorageType : String
  SecondaryStorage : ℤ
  deriving DecidableEq, Repr

/-- The `input_dict` literal (app.py:110-134): each categorical label is
translated with its encoder (any unseen label raises `ValueError`, aborting
the whole construction), the three Yes/No radios become 1/0, and the numeric
fields are passed through unchanged.  The resulting single-row record is an
association list in the source's key order. -/
def input_dict (encoders : Encoders) (f : FormState) : Except PyError (List (String × ℚ)) := do
  let company ← encoders.Company.transform f.Company
  let typeName ← encoders.TypeName.transform f.TypeName
  let os ← encoders.OS.transform f.OS
  let screen ← encoders.Screen.transform f.ScreenType
  let cpuCompany ← encoders.CPU_company.transform f.CPU_company
  let cpuModel ← encoders.CPU_model.transform f.CPU_model
  let primaryStorageType ← encoders.PrimaryStorageType.transform f.PrimaryStorageType
  let secondaryStorageType ← encoders.SecondaryStorageType.transform f.SecondaryStorageType
  let gpuCompany ← encoders.GPU_company.transform f.GPU_company
  let gpuModel ← encoders.GPU_model.transform f.GPU_model
  pure [
    ("Company", (company : ℚ)),
    ("TypeName", (typeName : ℚ)),
    ("OS", (os : ℚ)),
    ("Screen", (screen : ℚ)),
    ("CPU_company", (cpuCompany : ℚ)),
    ("CPU_model", (cpuModel : ℚ)),
    ("PrimaryStorageType", (primaryStorageType : ℚ)),
    ("SecondaryStorageType", (secondaryStorageType : ℚ)),
    ("GPU_company", (gpuCompany : ℚ)),
    ("GPU_model", (gpuModel : ℚ)),
    ("Touchscreen", if f.Touchscreen = "Yes" then 1 else 0),
    ("RetinaDisplay", if f.RetinaDisplay = "Yes" then 1 else 0),
    ("IPSpanel", if f.IPSpanel = "Yes" then 1 else 0),
    ("Inches", f.Inches),
    ("Weight", f.Weight),
    ("Ram", (f.Ram : ℚ)),
    ("CPU_freq", f.CPU_freq),
    ("ScreenW", (f.ScreenW : ℚ)),
    ("ScreenH", (f.ScreenH : ℚ)),
    ("PrimaryStorage", (f.PrimaryStorage : ℚ)),
    ("SecondaryStorage", (f.SecondaryStorage : ℚ))]

/-- `input_df.reindex(columns=feature_columns, fill_value=fill)`
(app.py:140) on the single-row frame built from `input_dict` (app.py:137):
the result has exactly the requested columns in the requested order, taking
the existing value where the column is present and `fill` where it is not;
columns of the row not named in `cols` are dropped. -/
def reindex (row : List (String × ℚ)) (cols : List String) (fill : ℚ) :
    List (String × ℚ) :=
  cols.map (fun c => (c, (row.lookup c).getD fill))

/-- The regression model loaded from `laptop_price_model.pkl` (app.py:10-11).
`predict` stands for `model.predict(input_df)[0]` on the single-row frame
(app.py:143): it returns one scalar or raises some Python exception. -/
structure Model where
  predict : List (String × ℚ) → Except PyError ℚ

/-- The user-visible outputs the submission handler can emit
(app.py:146-159): the success displays, the two `st.error` messages of the
except blocks, and the final `st.write` price line after the except blocks. -/
inductive Msg where
  | balloons
  | rule
  | estimatedPrice (price : ℚ)
  | errorUnrecognized (msg : String)
  | errorUnexpected (err : PyError)
  | predictedPrice (price : ℚ)
  deriving DecidableEq, Repr

/-- The predict-button handler (app.py:106-159).  The try block builds
`input_dict`, reindexes it against `feature_columns` with fill 0, and calls
`model.predict`; on success it shows balloons, two rules and the estimated
price.  `except ValueError` shows the unrecognized-category message;
`except Exception` shows the generic failure message.  After the except
blocks, app.py:159 unconditionally evaluates
`f"... {prediction} ..."`: when the try block raised before binding
`prediction`, that reference raises an uncaught `NameError`.  The result is
the list of messages displayed, paired with `Except.ok ()` when the handler
finishes normally and `Except.error` with the uncaught exception otherwise. -/
def handleSubmit (model : Model) (encoders : Encoders) (feature_columns : List String)
    (f : FormState) : List Msg × Except PyError Unit :=
  let tryBlock : Except PyError ℚ := do
    let d ← input_dict encoders f
    let input_df := reindex d feature_columns 0
    model.predict input_df
  match tryBlock with
  | Except.ok prediction =>
      ([Msg.balloons, Msg.rule, Msg.estimatedPrice prediction, Msg.rule,
        Msg.predictedPrice prediction], Except.ok ())
  | Except.error (PyError.valueError e) =>
      ([Msg.errorUnrecognized e],
        Except.error (PyError.nameError "name prediction is not defined"))
  | Except.error e =>
      ([Msg.errorUnexpected e],
        Except.error (PyError.nameError "name prediction is not defined"))

/-- The three pickle files the app opens at startup (app.py:9-17); `none`
means the file is absent, so `open` raises `FileNotFoundError`. -/
structure ArtifactFiles where
  laptop_price_model_pkl : Option Model
  encoders_pkl : Option Encoders
  feature_columns_pkl : Option (List String)

/-- The `st.error` text of app.py:19 (abridged). -/
def missingArtifactsMsg : String :=
  "Model or encoder files not found. Please ensure the pkl files are in the same directory."

/-- Outcome of the startup try/except (app.py:9-23): either all three
artifacts loaded, or the script stopped (`st.stop`) after displaying an
error. -/
inductive Startup where
  | halted (msg : String)
  | running (model : Model) (encoders : Encoders) (feature_columns : List String)

/-- The startup loader (app.py:9-23): the three files are opened in source
order; the first missing one raises `FileNotFoundError`, which is caught,
an error is displayed and `st.stop()` halts the script. -/
def loadArtifacts (fs : ArtifactFiles) : Startup :=
  match fs.laptop_price_model_pkl with
  | none => Startup.halted missingArtifactsMsg
  | some model =>
    match fs.encoders_pkl with
    | none => Startup.halted missingArtifactsMsg
    | some encoders =>
      match fs.feature_columns_pkl with
      | none => Startup.halted missingArtifactsMsg
      | some feature_columns => Startup.running model encoders feature_columns

/-- Observable outcome of one full script run: the startup error (if any),
whether the form widgets were rendered (app.py:26-102 run only when startup
succeeded, since `st.stop` halts the script), and the handler outcome when
the predict button was pressed. -/
structure AppRun where
  startupError : Option String
  formRendered : Bool
  handlerResult : Option (List Msg × Except PyError Unit)
  deriving Repr

/-- One top-to-bottom run of app.py: startup loading, then (only if it did
not halt) the form render and, if the button was pressed, the submission
handler. -/
def runApp (fs : ArtifactFiles) (f : FormState) (buttonPressed : Bool) : AppRun :=
  match loadArtifacts fs with
  | Startup.halted msg =>
      { startupError := some msg, formRendered := false, handlerResult := none }
  | Startup.running model encoders feature_columns =>
      { startupError := none, formRendered := true,
        handlerResult :=
          if buttonPressed then some (handleSubmit model encoders feature_columns f)
          else none }

/-- The constraint a Streamlit `number_input` with the given bounds imposes:
submitted values lie between `min_value` and `max_value` (app.py:52-102). -/
def number_input_accepts (min_value max_value v : ℚ) : Prop :=
  min_value ≤ v ∧ v ≤ max_value

/-- A form state reachable through the rendered widgets (app.py:45-102):
every selectbox value is one of its options — which are exactly the
corresponding encoder's `classes_` via `get_options` — every radio is one of
"No"/"Yes", and every `number_input` respects its `min_value`/`max_value`. -/
def formConstrained (encoders : Encoders) (f : FormState) : Prop :=
  f.Company ∈ get_options encoders.Company ∧
  f.TypeName ∈ get_options encoders.TypeName ∧
  f.OS ∈ get_options encoders.OS ∧
  f.ScreenType ∈ get_options encoders.Screen ∧
  f.CPU_company ∈ get_options encoders.CPU_company ∧
  f.CPU_model ∈ get_options encoders.CPU_model ∧
  f.GPU_company ∈ get_options encoders.GPU_company ∧
  f.GPU_model ∈ get_options encoders.GPU_model ∧
  f.PrimaryStorageType ∈ get_options encoders.PrimaryStorageType ∧
  f.SecondaryStorageType ∈ get_options encoders.SecondaryStorageType ∧
  f.Touchscreen ∈ ["No", "Yes"] ∧
  f.RetinaDisplay ∈ ["No", "Yes"] ∧
  f.IPSpanel ∈ ["No", "Yes"] ∧
  number_input_accepts 2 64 (f.Ram : ℚ) ∧
  number_input_accepts (1/2) 5 f.Weight ∧
  number_input_accepts 10 20 f.Inches ∧
  number_input_accepts 800 4000 (f.ScreenW : ℚ) ∧
  number_input_accepts 600 4000 (f.ScreenH : ℚ) ∧
  number_input_accepts 1 5 f.CPU_freq ∧
  number_input_accepts 0 4096 (f.PrimaryStorage : ℚ) ∧
  number_input_accepts 0 4096 (f.SecondaryStorage : ℚ)

/-- A concrete encoder set with small vocabularies, used to evaluate the
definitions on the sample scenario of the design document. -/
def sampleEncoders : Encoders :=
  { Company := ⟨["Apple", "Asus", "Dell", "HP", "Lenovo"]⟩
    TypeName := ⟨["Gaming", "Notebook", "Ultrabook"]⟩
    OS := ⟨["Linux", "Windows", "macOS"]⟩
    Screen := ⟨["4K", "Full HD", "Standard"]⟩
    CPU_company := ⟨["AMD", "Intel"]⟩
    CPU_model := ⟨["Core i5", "Core i7", "Ryzen 5"]⟩
    PrimaryStorageType := ⟨["Flash", "HDD", "SSD"]⟩
    SecondaryStorageType := ⟨["HDD", "None", "SSD"]⟩
    GPU_company := ⟨["AMD", "Intel", "Nvidia"]⟩
    GPU_model := ⟨["GTX 1650", "HD Graphics", "Radeon"]⟩ }

/-- The sample submission of the design document's scenario section. -/
def sampleForm : FormState :=
  { Company := "Dell"
    TypeName := "Notebook"
    OS := "Windows"
    Ram := 8
    Weight := 21/10
    Inches := 78/5
    ScreenType := "Full HD"
    ScreenW := 1920
    ScreenH := 1080
    Touchscreen := "No"
    RetinaDisplay := "No"
    IPSpanel := "No"
    CPU_company := "Intel"
    CPU_model := "Core i5"
    GPU_company := "Intel"
    GPU_model := "HD Graphics"
    CPU_freq := 5/2
    PrimaryStorageType := "SSD"
    PrimaryStorage := 256
    SecondaryStorageType := "None"
    SecondaryStorage := 0 }

/-- A concrete `feature_columns` list: the 21 feature names in one fixed
training order. -/
def sampleFeatureColumns : List String :=
  ["Company", "TypeName", "Inches", "Ram", "OS", "Weight", "Screen",
   "ScreenW", "ScreenH", "Touchscreen", "IPSpanel", "RetinaDisplay",
   "CPU_company", "CPU_freq", "CPU_model", "PrimaryStorage",
   "SecondaryStorage", "PrimaryStorageType", "SecondaryStorageType",
   "GPU_company", "GPU_model"]

/-- A model whose prediction call raises: used to exercise the except blocks
of the submission handler. -/
def failingModel : Model :=
  ⟨fun _ => Except.error (PyError.otherError "inference failed")⟩

/-- A model whose prediction call returns a constant price. -/
def constantModel (price : ℚ) : Model :=
  ⟨fun _ => Except.ok price⟩

theorem except_bind_ok {α β ε : Type} (a : α) (g : α → Except ε β) :
    (Except.ok a >>= g) = g a := rfl

theorem except_bind_error {α β ε : Type} (err : ε) (g : α → Except ε β) :
    ((Except.error err : Except ε α) >>= g) = Except.error err := rfl

theorem except_pure_eq {α ε : Type} (a : α) : (pure a : Except ε α) = Except.ok a := rfl

theorem transform_of_mem (enc : LabelEncoder) (l : String) (h : l ∈ enc.classes_) :
    enc.transform l = Except.ok (enc.classes_.indexOf l) := by
  simp [LabelEncoder.transform, h]

theorem transform_of_not_mem (enc : LabelEncoder) (l : String) (h : l ∉ enc.classes_) :
    enc.transform l =
      Except.error (PyError.valueError ("y contains previously unseen label " ++ l)) := by
  simp [LabelEncoder.transform, h]

theorem transform_ok_mem (enc : LabelEncoder) (l : String) (i : Nat)
    (h : enc.transform l = Except.ok i) :
    l ∈ enc.classes_ ∧ i = enc.classes_.indexOf l := by
  by_cases hm : l ∈ enc.classes_
  · rw [transform_of_mem enc l hm] at h
    cases h
    exact ⟨hm, rfl⟩
  · rw [transform_of_not_mem enc l hm] at h
    cases h

theorem transform_error_elim (enc : LabelEncoder) (l : String) (err : PyError)
    (h : enc.transform l = Except.error err) : ∃ s, err = PyError.valueError s := by
  by_cases hm : l ∈ enc.classes_
  · rw [transform_of_mem enc l hm] at h
    cases h
  · rw [transform_of_not_mem enc l hm] at h
    cases h
    exact ⟨_, rfl⟩

/-- The explicit association list `input_dict` evaluates to when every
categorical transform succeeds, with each code spelled as the label's index
in its vocabulary. -/
def assembledRecord (e : Encoders) (f : FormState) : List (String × ℚ) :=
  [("Company", (e.Company.classes_.indexOf f.Company : ℚ)),
   ("TypeName", (e.TypeName.classes_.indexOf f.TypeName : ℚ)),
   ("OS", (e.OS.classes_.indexOf f.OS : ℚ)),
   ("Screen", (e.Screen.classes_.indexOf f.ScreenType : ℚ)),
   ("CPU_company", (e.CPU_company.classes_.indexOf f.CPU_company : ℚ)),
   ("CPU_model", (e.CPU_model.classes_.indexOf f.CPU_model : ℚ)),
   ("PrimaryStorageType", (e.PrimaryStorageType.classes_.indexOf f.PrimaryStorageType : ℚ)),
   ("SecondaryStorageType", (e.SecondaryStorageType.classes_.indexOf f.SecondaryStorageType : ℚ)),
   ("GPU_company", (e.GPU_company.classes_.indexOf f.GPU_company : ℚ)),
   ("GPU_model", (e.GPU_model.classes_.indexOf f.GPU_model : ℚ)),
   ("Touchscreen", if f.Touchscreen = "Yes" then 1 else 0),
   ("RetinaDisplay", if f.RetinaDisplay = "Yes" then 1 else 0),
   ("IPSpanel", if f.IPSpanel = "Yes" then 1 else 0),
   ("Inches", f.Inches),
   ("Weight", f.Weight),
   ("Ram", (f.Ram : ℚ)),
   ("CPU_freq", f.CPU_freq),
   ("ScreenW", (f.ScreenW : ℚ)),
   ("ScreenH", (f.ScreenH : ℚ)),
   ("PrimaryStorage", (f.PrimaryStorage : ℚ)),
   ("SecondaryStorage", (f.SecondaryStorage : ℚ))]

theorem input_dict_ok_elim (e : Encoders) (f : FormState) (d : List (String × ℚ))
    (h : input_dict e f = Except.ok d) :
    f.Company ∈ e.Company.classes_ ∧ f.TypeName ∈ e.TypeName.classes_ ∧
    f.OS ∈ e.OS.classes_ ∧ f.ScreenType ∈ e.Screen.classes_ ∧
    f.CPU_company ∈ e.CPU_company.classes_ ∧ f.CPU_model ∈ e.CPU_model.classes_ ∧
    f.PrimaryStorageType ∈ e.PrimaryStorageType.classes_ ∧
    f.SecondaryStorageType ∈ e.SecondaryStorageType.classes_ ∧
    f.GPU_company ∈ e.GPU_company.classes_ ∧ f.GPU_model ∈ e.GPU_model.classes_ ∧
    d = assembledRecord e f := by
  unfold input_dict at h
  cases h1 : e.Company.transform f.Company with
  | error err => rw [h1, except_bind_error] at h; cases h
  | ok c1 =>
  rw [h1, except_bind_ok] at h
  obtain ⟨m1, v1⟩ := transform_ok_mem _ _ _ h1
  subst v1
  cases h2 : e.TypeName.transform f.TypeName with
  | error err => rw [h2, except_bind_error] at h; cases h
  | ok c2 =>
  rw [h2, except_bind_ok] at h
  obtain ⟨m2, v2⟩ := transform_ok_mem _ _ _ h2
  subst v2
  cases h3 : e.OS.transform f.OS with
  | error err => rw [h3, except_bind_error] at h; cases h
  | ok c3 =>
  rw [h3, except_bind_ok] at h
  obtain ⟨m3, v3⟩ := transform_ok_mem _ _ _ h3
  subst v3
  cases h4 : e.Screen.transform f.ScreenType with
  | error err => rw [h4, except_bind_error] at h; cases h
  | ok c4 =>
  rw [h4, except_bind_ok] at h
  obtain ⟨m4, v4⟩ := transform_ok_mem _ _ _ h4
  subst v4
  cases h5 : e.CPU_company.transform f.CPU_company with
  | error err => rw [h5, except_bind_error] at h; cases h
  | ok c5 =>
  rw [h5, except_bind_ok] at h
  obtain ⟨m5, v5⟩ := transform_ok_mem _ _ _ h5
  subst v5
  cases h6 : e.CPU_model.transform f.CPU_model with
  | error err => rw [h6, except_bind_error] at h; cases h
  | ok c6 =>
  rw [h6, except_bind_ok] at h
  obtain ⟨m6, v6⟩ := transform_ok_mem _ _ _ h6
  subst v6
  cases h7 : e.PrimaryStorageType.transform f.PrimaryStorageType with
  | error err => rw [h7, except_bind_error] at h; cases h
  | ok c7 =>
  rw [h7, except_bind_ok] at h
  obtain ⟨m7, v7⟩ := transform_ok_mem _ _ _ h7
  subst v7
  cases h8 : e.SecondaryStorageType.transform f.SecondaryStorageType with
  | error err => rw [h8, except_bind_error] at h; cases h
  | ok c8 =>
  rw [h8, except_bind_ok] at h
  obtain ⟨m8, v8⟩ := transform_ok_mem _ _ _ h8
  subst v8
  cases h9 : e.GPU_company.transform f.GPU_company with
  | error err => rw [h9, except_bind_error] at h; cases h
  | ok c9 =>
  rw [h9, except_bind_ok] at h
  obtain ⟨m9, v9⟩ := transform_ok_mem _ _ _ h9
  subst v9
  cases h10 : e.GPU_model.transform f.GPU_model with
  | error err => rw [h10, except_bind_error] at h; cases h
  | ok c10 =>
  rw [h10, except_bind_ok, except_pure_eq] at h
  obtain ⟨m10, v10⟩ := transform_ok_mem _ _ _ h10
  subst v10
  cases h
  exact ⟨m1, m2, m3, m4, m5, m6, m7, m8, m9, m10, rfl⟩

theorem input_dict_error_elim (e : Encoders) (f : FormState) (err : PyError)
    (h : input_dict e f = Except.error err) : ∃ s, err = PyError.valueError s := by
  unfold input_dict at h
  cases h1 : e.Company.transform f.Company with
  | error e1 => rw [h1, except_bind_error] at h; cases h; exact transform_error_elim _ _ _ h1
  | ok c1 =>
  rw [h1, except_bind_ok] at h
  cases h2 : e.TypeName.transform f.TypeName with
  | error e2 => rw [h2, except_bind_error] at h; cases h; exact transform_error_elim _ _ _ h2
  | ok c2 =>
  rw [h2, except_bind_ok] at h
  cases h3 : e.OS.transform f.OS with
  | error e3 => rw [h3, except_bind_error] at h; cases h; exact transform_error_elim _ _ _ h3
  | ok c3 =>
  rw [h3, except_bind_ok] at h
  cases h4 : e.Screen.transform f.ScreenType with
  | error e4 => rw [h4, except_bind_error] at h; cases h; exact transform_error_elim _ _ _ h4
  | ok c4 =>
  rw [h4, except_bind_ok] at h
  cases h5 : e.CPU_company.transform f.CPU_company with
  | error e5 => rw [h5, except_bind_error] at h; cases h; exact transform_error_elim _ _ _ h5
  | ok c5 =>
  rw [h5, except_bind_ok] at h
  cases h6 : e.CPU_model.transform f.CPU_model with
  | error e6 => rw [h6, except_bind_error] at h; cases h; exact transform_error_elim _ _ _ h6
  | ok c6 =>
  rw [h6, except_bind_ok] at h
  cases h7 : e.PrimaryStorageType.transform f.PrimaryStorageType with
  | error e7 => rw [h7, except_bind_error] at h; cases h; exact transform_error_elim _ _ _ h7
  | ok c7 =>
  rw [h7, except_bind_ok] at h
  cases h8 : e.SecondaryStorageType.transform f.SecondaryStorageType with
  | error e8 => rw [h8, except_bind_error] at h; cases h; exact transform_error_elim _ _ _ h8
  | ok c8 =>
  rw [h8, except_bind_ok] at h
  cases h9 : e.GPU_company.transform f.GPU_company with
  | error e9 => rw [h9, except_bind_error] at h; cases h; exact transform_error_elim _ _ _ h9
  | ok c9 =>
  rw [h9, except_bind_ok] at h
  cases h10 : e.GPU_model.transform f.GPU_model with
  | error e10 => rw [h10, except_bind_error] at h; cases h; exact transform_error_elim _ _ _ h10
  | ok c10 =>
  rw [h10, except_bind_ok, except_pure_eq] at h
  cases h

theorem input_dict_of_mem (e : Encoders) (f : FormState)
    (m1 : f.Company ∈ e.Company.classes_) (m2 : f.TypeName ∈ e.TypeName.classes_)
    (m3 : f.OS ∈ e.OS.classes_) (m4 : f.ScreenType ∈ e.Screen.classes_)
    (m5 : f.CPU_company ∈ e.CPU_company.classes_) (m6 : f.CPU_model ∈ e.CPU_model.classes_)
    (m7 : f.PrimaryStorageType ∈ e.PrimaryStorageType.classes_)
    (m8 : f.SecondaryStorageType ∈ e.SecondaryStorageType.classes_)
    (m9 : f.GPU_company ∈ e.GPU_company.classes_) (m10 : f.GPU_model ∈ e.GPU_model.classes_) :
    input_dict e f = Except.ok (assembledRecord e f) := by
  unfold input_dict
  rw [transform_of_mem _ _ m1, except_bind_ok, transform_of_mem _ _ m2, except_bind_ok,
    transform_of_mem _ _ m3, except_bind_ok, transform_of_mem _ _ m4, except_bind_ok,
    transform_of_mem _ _ m5, except_bind_ok, transform_of_mem _ _ m6, except_bind_ok,
    transform_of_mem _ _ m7, except_bind_ok, transform_of_mem _ _ m8, except_bind_ok,
    transform_of_mem _ _ m9, except_bind_ok, transform_of_mem _ _ m10, except_bind_ok,
    except_pure_eq]
  rfl

theorem reindex_lookup (row : List (String × ℚ)) (cols : List String) (fill : ℚ) (c : String) :
    (reindex row cols fill).lookup c =
      if c ∈ cols then some ((row.lookup c).getD fill) else none := by
  induction cols with
  | nil => simp [reindex]
  | cons hd tl ih =>
    by_cases hc : c = hd
    · subst hc
      simp [reindex, List.lookup_cons]
    · simp only [reindex, List.map_cons, List.lookup_cons, List.mem_cons] at *
      have hbeq : (c == hd) = false := beq_false_of_ne hc
      rw [hbeq]
      simp only [ih]
      by_cases hmem : c ∈ tl
      · rw [if_pos hmem, if_pos (Or.inr hmem)]
      · rw [if_neg hmem, if_neg (by tauto)]

/-- C2: for every categorical attribute, a supplied label outside that
attribute's encoder vocabulary makes feature assembly fail with the
`ValueError` (unrecognized category) condition, and no feature vector is
produced — no default or substitute code is used. -/
theorem c2_unrecognized_label_fails (e : Encoders) (f : FormState)
    (h : f.Company ∉ e.Company.classes_ ∨ f.TypeName ∉ e.TypeName.classes_ ∨
      f.OS ∉ e.OS.classes_ ∨ f.ScreenType ∉ e.Screen.classes_ ∨
      f.CPU_company ∉ e.CPU_company.classes_ ∨ f.CPU_model ∉ e.CPU_model.classes_ ∨
      f.PrimaryStorageType ∉ e.PrimaryStorageType.classes_ ∨
      f.SecondaryStorageType ∉ e.SecondaryStorageType.classes_ ∨
      f.GPU_company ∉ e.GPU_company.classes_ ∨ f.GPU_model ∉ e.GPU_model.classes_) :
    (∃ s, input_dict e f = Except.error (PyError.valueError s)) ∧
    ∀ d, input_dict e f ≠ Except.ok d := by
  have hne : ∀ d, input_dict e f ≠ Except.ok d := by
    intro d hd
    obtain ⟨m1, m2, m3, m4, m5, m6, m7, m8, m9, m10, -⟩ := input_dict_ok_elim e f d hd
    rcases h with h | h | h | h | h | h | h | h | h | h <;> contradiction
  refine ⟨?_, hne⟩
  cases hid : input_dict e f with
  | ok d => exact absurd hid (hne d)
  | error err =>
    obtain ⟨s, rfl⟩ := input_dict_error_elim e f err hid
    exact ⟨s, rfl⟩

/-- Witness for C2 at a concrete unseen label: Company "Toshiba" is not in
the sample vocabulary, so assembly errors with a `ValueError` and yields no
record. -/
theorem c2_unrecognized_label_fails_witness :
    (∃ s, input_dict sampleEncoders { sampleForm with Company := "Toshiba" } =
      Except.error (PyError.valueError s)) ∧
    ∀ d, input_dict sampleEncoders { sampleForm with Company := "Toshiba" } ≠ Except.ok d :=
  c2_unrecognized_label_fails sampleEncoders { sampleForm with Company := "Toshiba" }
    (Or.inl (by decide))

/-- C3: for every feature record, reindexing against the schema yields
exactly the schema's columns in schema order; any schema name absent from
the record is filled with zero, any record entry whose name is not in the
schema is dropped. -/
theorem c3_reindex_exact_schema (row : List (String × ℚ)) (cols : List String) :
    (reindex row cols 0).map Prod.fst = cols ∧
    (∀ c ∈ cols, row.lookup c = none → (reindex row cols 0).lookup c = some 0) ∧
    (∀ c v, c ∈ cols → row.lookup c = some v → (reindex row cols 0).lookup c = some v) ∧
    (∀ p ∈ reindex row cols 0, p.1 ∈ cols) := by
  refine ⟨?_, ?_, ?_, ?_⟩
  · simp [reindex, List.map_map, Function.comp_def]
  · intro c hc hnone
    rw [reindex_lookup, if_pos hc, hnone]
    rfl
  · intro c v hc hsome
    rw [reindex_lookup, if_pos hc, hsome]
    rfl
  · intro p hp
    simp only [reindex, List.mem_map] at hp
    obtain ⟨c, hc, rfl⟩ := hp
    exact hc

/-- Witness for C3 on concrete data: schema column "B" is missing from the
record and gets 0, record key "Z" is not in the schema. -/
theorem c3_reindex_exact_schema_witness :
    (reindex [("A", (1 : ℚ)), ("Z", 5)] ["A", "B"] 0).lookup "B" = some 0 :=
  (c3_reindex_exact_schema [("A", (1 : ℚ)), ("Z", 5)] ["A", "B"]).2.1 "B"
    (by decide) (by decide)

/-- C4: for every label L in an encoder's trained vocabulary, decoding the
code produced by encoding L returns L, and encoding is injective on the
vocabulary (the encoder is a bijection between labels and codes). -/
theorem c4_encoder_roundtrip (enc : LabelEncoder) (L : String) (h : L ∈ enc.classes_) :
    (∃ i, enc.transform L = Except.ok i ∧ enc.inverse_transform i = Except.ok L) ∧
    ∀ M ∈ enc.classes_, enc.transform L = enc.transform M → L = M := by
  constructor
  · refine ⟨enc.classes_.indexOf L, transform_of_mem enc L h, ?_⟩
    have hlt : enc.classes_.indexOf L < enc.classes_.length := List.indexOf_lt_length.mpr h
    unfold LabelEncoder.inverse_transform
    rw [dif_pos hlt, List.indexOf_get]
  · intro M hM heq
    rw [transform_of_mem enc L h, transform_of_mem enc M hM] at heq
    injection heq with hidx
    exact (List.indexOf_inj h hM).mp hidx

/-- Witness for C4: the label "Dell" of the sample Company encoder encodes
to a code that decodes back to "Dell". -/
theorem c4_encoder_roundtrip_witness :
    ∃ i, sampleEncoders.Company.transform "Dell" = Except.ok i ∧
      sampleEncoders.Company.inverse_transform i = Except.ok "Dell" :=
  (c4_encoder_roundtrip sampleEncoders.Company "Dell" (by decide)).1

/-- C5: in any successfully assembled record, each of the three boolean
attributes Touchscreen, RetinaDisplay and IPSpanel carries 1 when the form
choice was "Yes" and 0 when it was "No". -/
theorem c5_boolean_encoding (e : Encoders) (f : FormState) (d : List (String × ℚ))
    (h : input_dict e f = Except.ok d) :
    (f.Touchscreen = "Yes" → d.lookup "Touchscreen" = some 1) ∧
    (f.Touchscreen = "No" → d.lookup "Touchscreen" = some 0) ∧
    (f.RetinaDisplay = "Yes" → d.lookup "RetinaDisplay" = some 1) ∧
    (f.RetinaDisplay = "No" → d.lookup "RetinaDisplay" = some 0) ∧
    (f.IPSpanel = "Yes" → d.lookup "IPSpanel" = some 1) ∧
    (f.IPSpanel = "No" → d.lookup "IPSpanel" = some 0) := by
  obtain ⟨-, -, -, -, -, -, -, -, -, -, rfl⟩ := input_dict_ok_elim e f d h
  refine ⟨?_, ?_, ?_, ?_, ?_, ?_⟩ <;> intro hv <;>
    simp [assembledRecord, List.lookup_cons, hv]

/-- Witness for C5 at the sample submission (all three radios "No"): the
assembled record carries 0 for Touchscreen. -/
theorem c5_boolean_encoding_witness :
    (assembledRecord sampleEncoders sampleForm).lookup "Touchscreen" = some 0 :=
  (c5_boolean_encoding sampleEncoders sampleForm (assembledRecord sampleEncoders sampleForm)
    (by rfl)).2.1 (by rfl)

/-- C6: in any successfully assembled record, every numeric attribute (RAM,
weight, screen width and height, CPU frequency, primary and secondary
storage size, screen size) carries exactly the value supplied on the form,
unchanged by assembly. -/
theorem c6_numeric_passthrough (e : Encoders) (f : FormState) (d : List (String × ℚ))
    (h : input_dict e f = Except.ok d) :
    d.lookup "Ram" = some (f.Ram : ℚ) ∧
    d.lookup "Weight" = some f.Weight ∧
    d.lookup "ScreenW" = some (f.ScreenW : ℚ) ∧
    d.lookup "ScreenH" = some (f.ScreenH : ℚ) ∧
    d.lookup "CPU_freq" = some f.CPU_freq ∧
    d.lookup "PrimaryStorage" = some (f.PrimaryStorage : ℚ) ∧
    d.lookup "SecondaryStorage" = some (f.SecondaryStorage : ℚ) ∧
    d.lookup "Inches" = some f.Inches := by
  obtain ⟨-, -, -, -, -, -, -, -, -, -, rfl⟩ := input_dict_ok_elim e f d h
  exact ⟨rfl, rfl, rfl, rfl, rfl, rfl, rfl, rfl⟩

/-- Witness for C6 at the sample submission: RAM arrives as exactly 8. -/
theorem c6_numeric_passthrough_witness :
    (assembledRecord sampleEncoders sampleForm).lookup "Ram" = some ((8 : ℤ) : ℚ) :=
  (c6_numeric_passthrough sampleEncoders sampleForm (assembledRecord sampleEncoders sampleForm)
    (by rfl)).1

/-- C7: the RAM `number_input` constraint (min 2, max 64) accepts the
boundary values 2 and 64, rejects 1 and 65, and every form state reachable
through the widgets has 2 ≤ Ram ≤ 64, so the assembler only ever receives
RAM values in that range. -/
theorem c7_ram_bounds :
    number_input_accepts 2 64 ((2 : ℤ) : ℚ) ∧
    number_input_accepts 2 64 ((64 : ℤ) : ℚ) ∧
    ¬ number_input_accepts 2 64 ((1 : ℤ) : ℚ) ∧
    ¬ number_input_accepts 2 64 ((65 : ℤ) : ℚ) ∧
    ∀ (e : Encoders) (f : FormState), formConstrained e f → 2 ≤ f.Ram ∧ f.Ram ≤ 64 := by
  refine ⟨⟨by norm_num, by norm_num⟩, ⟨by norm_num, by norm_num⟩, ?_, ?_, ?_⟩
  · intro ⟨h1, h2⟩
    norm_num at h1
  · intro ⟨h1, h2⟩
    norm_num at h2
  · intro _ f hf
    obtain ⟨-, -, -, -, -, -, -, -, -, -, -, -, -, hram, -⟩ := hf
    obtain ⟨hlo, hhi⟩ := hram
    exact ⟨by exact_mod_cast hlo, by exact_mod_cast hhi⟩

/-- Witness for C7: the sample submission is widget-reachable and its RAM
value 8 lies in the accepted range. -/
theorem c7_ram_bounds_witness : 2 ≤ sampleForm.Ram ∧ sampleForm.Ram ≤ 64 :=
  c7_ram_bounds.2.2.2.2 sampleEncoders sampleForm
    (by
      unfold formConstrained number_input_accepts get_options
      refine ⟨by decide, by decide, by decide, by decide, by decide, by decide, by decide,
        by decide, by decide, by decide, by decide, by decide, by decide,
        ?_, ?_, ?_, ?_, ?_, ?_, ?_, ?_⟩ <;>
      constructor <;> norm_num [sampleForm])

/-- C8: if any of the three serialized artifacts is absent at startup, the
script run shows the user-visible missing-artifacts error and halts: no form
is rendered and no submission handler (hence no prediction) runs, whatever
form values and button state follow. -/
theorem c8_missing_artifact_halts (fs : ArtifactFiles) (f : FormState) (b : Bool)
    (h : fs.laptop_price_model_pkl = none ∨ fs.encoders_pkl = none ∨
      fs.feature_columns_pkl = none) :
    (runApp fs f b).startupError = some missingArtifactsMsg ∧
    (runApp fs f b).formRendered = false ∧
    (runApp fs f b).handlerResult = none := by
  obtain ⟨mf, ef, cf⟩ := fs
  cases mf <;> cases ef <;> cases cf <;>
    simp_all [runApp, loadArtifacts]

/-- Witness for C8: with all three artifact files absent and the button
pressed, the run halts with the error, renders nothing and predicts
nothing. -/
theorem c8_missing_artifact_halts_witness :
    (runApp ⟨none, none, none⟩ sampleForm true).startupError = some missingArtifactsMsg ∧
    (runApp ⟨none, none, none⟩ sampleForm true).formRendered = false ∧
    (runApp ⟨none, none, none⟩ sampleForm true).handlerResult = none :=
  c8_missing_artifact_halts ⟨none, none, none⟩ sampleForm true (Or.inl rfl)

theorem handleSubmit_predict_ok (m : Model) (e : Encoders) (cols : List String)
    (f : FormState) (d : List (String × ℚ)) (p : ℚ)
    (hd : input_dict e f = Except.ok d) (hp : m.predict (reindex d cols 0) = Except.ok p) :
    handleSubmit m e cols f =
      ([Msg.balloons, Msg.rule, Msg.estimatedPrice p, Msg.rule, Msg.predictedPrice p],
        Except.ok ()) := by
  simp only [handleSubmit, hd, except_bind_ok, hp]

theorem handleSubmit_predict_valueError (m : Model) (e : Encoders) (cols : List String)
    (f : FormState) (d : List (String × ℚ)) (s : String)
    (hd : input_dict e f = Except.ok d)
    (hp : m.predict (reindex d cols 0) = Except.error (PyError.valueError s)) :
    handleSubmit m e cols f =
      ([Msg.errorUnrecognized s],
        Except.error (PyError.nameError "name prediction is not defined")) := by
  simp only [handleSubmit, hd, except_bind_ok, hp]

theorem handleSubmit_predict_other (m : Model) (e : Encoders) (cols : List String)
    (f : FormState) (d : List (String × ℚ)) (err : PyError)
    (hd : input_dict e f = Except.ok d)
    (hp : m.predict (reindex d cols 0) = Except.error err)
    (hne : ∀ s, err ≠ PyError.valueError s) :
    handleSubmit m e cols f =
      ([Msg.errorUnexpected err],
        Except.error (PyError.nameError "name prediction is not defined")) := by
  cases err with
  | valueError s => exact absurd rfl (hne s)
  | nameError s => simp only [handleSubmit, hd, except_bind_ok, hp]
  | otherError s => simp only [handleSubmit, hd, except_bind_ok, hp]

/-- C9: under form-constrained input every selectbox value is one of its
encoder's classes, so label encoding succeeds (`input_dict` returns a
record, raising no `ValueError`); consequently the unrecognized-label branch
of the handler can only be entered if the model's own prediction call raises
a `ValueError`, never because of the selected labels. -/
theorem c9_unrecognized_branch_unreachable (m : Model) (e : Encoders) (cols : List String)
    (f : FormState) (h : formConstrained e f) :
    input_dict e f = Except.ok (assembledRecord e f) ∧
    ∀ s, Msg.errorUnrecognized s ∈ (handleSubmit m e cols f).1 →
      m.predict (reindex (assembledRecord e f) cols 0) =
        Except.error (PyError.valueError s) := by
  obtain ⟨m1, m2, m3, m4, m5, m6, m7, m8, m9, m10, -⟩ := h
  have hok : input_dict e f = Except.ok (assembledRecord e f) :=
    input_dict_of_mem e f m1 m2 m3 m4 m5 m6 m9 m10 m7 m8
  refine ⟨hok, ?_⟩
  intro s hs
  cases hp : m.predict (reindex (assembledRecord e f) cols 0) with
  | ok p =>
    rw [handleSubmit_predict_ok m e cols f _ p hok hp] at hs
    simp at hs
  | error err =>
    cases err with
    | valueError s2 =>
      rw [handleSubmit_predict_valueError m e cols f _ s2 hok hp] at hs
      simp at hs
      rw [hs]
    | nameError s2 =>
      rw [handleSubmit_predict_other m e cols f _ _ hok hp (by intro s3 hc; cases hc)] at hs
      simp at hs
    | otherError s2 =>
      rw [handleSubmit_predict_other m e cols f _ _ hok hp (by intro s3 hc; cases hc)] at hs
      simp at hs

/-- Witness for C9: the sample widget-reachable submission assembles
successfully. -/
theorem c9_unrecognized_branch_unreachable_witness :
    input_dict sampleEncoders sampleForm = Except.ok (assembledRecord sampleEncoders sampleForm) :=
  (c9_unrecognized_branch_unreachable (constantModel 1000) sampleEncoders sampleFeatureColumns
    sampleForm
    (by
      unfold formConstrained number_input_accepts get_options
      refine ⟨by decide, by decide, by decide, by decide, by decide, by decide, by decide,
        by decide, by decide, by decide, by decide, by decide, by decide,
        ?_, ?_, ?_, ?_, ?_, ?_, ?_, ?_⟩ <;>
      constructor <;> norm_num [sampleForm])).1

/-- C10: feature assembly is deterministic and reads nothing beyond the
loaded artifacts and the 21 form fields: two submissions agreeing on all 21
fields produce the same `input_dict` outcome and, when assembly succeeds,
identical reindexed feature vectors. -/
theorem c10_assembly_deterministic (e : Encoders) (cols : List String) (f1 f2 : FormState)
    (h1 : f1.Company = f2.Company) (h2 : f1.TypeName = f2.TypeName) (h3 : f1.OS = f2.OS)
    (h4 : f1.Ram = f2.Ram) (h5 : f1.Weight = f2.Weight) (h6 : f1.Inches = f2.Inches)
    (h7 : f1.ScreenType = f2.ScreenType) (h8 : f1.ScreenW = f2.ScreenW)
    (h9 : f1.ScreenH = f2.ScreenH) (h10 : f1.Touchscreen = f2.Touchscreen)
    (h11 : f1.RetinaDisplay = f2.RetinaDisplay) (h12 : f1.IPSpanel = f2.IPSpanel)
    (h13 : f1.CPU_company = f2.CPU_company) (h14 : f1.CPU_model = f2.CPU_model)
    (h15 : f1.GPU_company = f2.GPU_company) (h16 : f1.GPU_model = f2.GPU_model)
    (h17 : f1.CPU_freq = f2.CPU_freq) (h18 : f1.PrimaryStorageType = f2.PrimaryStorageType)
    (h19 : f1.PrimaryStorage = f2.PrimaryStorage)
    (h20 : f1.SecondaryStorageType = f2.SecondaryStorageType)
    (h21 : f1.SecondaryStorage = f2.SecondaryStorage) :
    input_dict e f1 = input_dict e f2 ∧
    ∀ d1 d2, input_dict e f1 = Except.ok d1 → input_dict e f2 = Except.ok d2 →
      reindex d1 cols 0 = reindex d2 cols 0 := by
  have hf : f1 = f2 := by
    cases f1
    cases f2
    simp_all
  subst hf
  refine ⟨rfl, ?_⟩
  intro d1 d2 hd1 hd2
  rw [hd1] at hd2
  cases hd2
  rfl

/-- Witness for C10: two submissions with the sample values field for field
assemble to the same outcome and the same vector. -/
theorem c10_assembly_deterministic_witness :
    input_dict sampleEncoders sampleForm = input_dict sampleEncoders sampleForm ∧
    ∀ d1 d2, input_dict sampleEncoders sampleForm = Except.ok d1 →
      input_dict sampleEncoders sampleForm = Except.ok d2 →
      reindex d1 sampleFeatureColumns 0 = reindex d2 sampleFeatureColumns 0 :=
  c10_assembly_deterministic sampleEncoders sampleFeatureColumns sampleForm sampleForm
    rfl rfl rfl rfl rfl rfl rfl rfl rfl rfl rfl rfl rfl rfl rfl rfl rfl rfl rfl rfl rfl

/-- C1: the claim that nothing after the except blocks raises is violated by
the code.  At a submission where the model's prediction call raises, the
handler does display the generic failure message (first conjunct), but the
final `st.write` of app.py:159 then references the never-bound name
`prediction` and raises an uncaught `NameError` (second conjunct), so the
script run fails after the error message. -/
theorem c1_prediction_error_then_nameerror :
    (handleSubmit failingModel sampleEncoders sampleFeatureColumns sampleForm).1 =
      [Msg.errorUnexpected (PyError.otherError "inference failed")] ∧
    (handleSubmit failingModel sampleEncoders sampleFeatureColumns sampleForm).2 =
      Except.error (PyError.nameError "name prediction is not defined") :=
  ⟨rfl, rfl⟩
